import Mathlib

/-!
Verification of the stock-portfolio backend's rebalancing / tax-lot core.

This file gives a shallow embedding, in Lean 4, of the parts of the Python
backend that the specification's claims are about:

* `overamt_task.py` — portfolio value, per-symbol position value, and the
  overamt/flag batch update (`run_update`);
* `routes.py` — the open-lots listing (`get_open_lots`), the lot-ledger
  position query (`ledger_net_units`, from `get_position`), and the
  potential-lot selector (`get_potential_lots`);
* `crudroutes.py` — `close_lots`;
* `dividend_analysis.py` — `detect_payment_frequency`;
* `dividend_routes.py` — `get_symbol_prediction` (dividend forecasting).

Modelling conventions:

* SQLite rows become Lean structures; nullable columns become `Option`.
* Python floats are idealized as `ℚ` (and as `ℝ` where the source takes a
  square root); Python's `round(x, n)` (round-half-to-even on the idealized
  value) is `py_round`.
* Database reads are modelled by passing the fetched rows / maps as explicit
  arguments; the current time source is an explicit `today` day-number.
* Python exceptions (`ZeroDivisionError`, `ValueError`, `TypeError`,
  `NameError`, `HTTPException`) are modelled with `Except`: `Except.error`
  names the exception that escapes the translated block.
* Calendar dates are abstracted as a `PyDate` record carrying the calendar
  year and an absolute day number (differences of `absDay` model
  `(d2 - d1).days` of `datetime`).
-/

/-- Round-half-to-even of a rational to an integer, the rounding mode of
Python 3's built-in `round`. -/
def round_half_even (q : ℚ) : ℤ :=
  let f := ⌊q⌋
  let r := q - (f : ℚ)
  if r < 1/2 then f
  else if 1/2 < r then f + 1
  else if 2 ∣ f then f else f + 1

/-- Python's `round(q, d)`: round-half-to-even at `d` decimal digits. -/
def py_round (q : ℚ) (d : ℕ) : ℚ :=
  (round_half_even (q * 10 ^ d) : ℚ) / 10 ^ d

/-- The result of Python's `datetime.strptime` on a well-formed date string:
the calendar year and an absolute day number (so that subtracting two
`absDay`s models `timedelta.days`). -/
structure PyDate where
  year : ℤ
  absDay : ℤ
deriving DecidableEq, Repr

/-- The `date_new` TEXT column: either SQL NULL or a string; a string either
parses under `datetime.strptime(_, '%Y-%m-%d')` (the payload) or raises
`ValueError` (`str none`). -/
inductive DateField where
  | null : DateField
  | str : Option PyDate → DateField
deriving DecidableEq, Repr

/-- A row of the `transactions` table (the columns the core reads). -/
structure Tx where
  id : ℤ
  date_new : DateField
  symbol : String
  xtype : String
  acct : String
  units : ℚ
  price : Option ℚ
  units_remaining : Option ℚ
  gain : Option ℚ
  disposition : Option String
deriving DecidableEq, Repr

/-- A row of the `MPT` table (the columns the core reads/writes). -/
structure MptRow where
  symbol : String
  target_alloc : ℚ
  overamt : ℚ
  flag : String
deriving DecidableEq, Repr

/-- The shared relational store: transactions, the current-price table
(`prices`, one row per symbol) and the MPT target-allocation table. -/
structure Db where
  transactions : List Tx
  prices : List (String × ℚ)
  mpt : List MptRow
deriving Repr

/-- `SELECT SUM(units) FROM transactions WHERE xtype = 'Buy' AND symbol = s`
(`SUM` of no rows is NULL, which the task replaces by 0 — sum of the empty
list). From `overamt_task.py`. -/
def buy_units (txs : List Tx) (s : String) : ℚ :=
  ((txs.filter (fun t => t.xtype == "Buy" && t.symbol == s)).map Tx.units).sum

/-- Like `buy_units`, for `xtype = 'Sell'`. -/
def sell_units (txs : List Tx) (s : String) : ℚ :=
  ((txs.filter (fun t => t.xtype == "Sell" && t.symbol == s)).map Tx.units).sum

/-- Net units as `overamt_task.py` computes them: total Buy units minus total
Sell units over all transactions of the symbol. -/
def net_units (txs : List Tx) (s : String) : ℚ :=
  buy_units txs s - sell_units txs s

/-- `calculate_portfolio_value` from `overamt_task.py`: sum over all distinct
transaction symbols of `net_units * current_price`, skipping symbols with
`net_units ≤ 0` and symbols with no price row (the iteration order of the SQL
`ORDER BY symbol` does not affect the sum, so symbols are deduplicated in
first-occurrence order here). -/
def calculate_portfolio_value (txs : List Tx) (prices : List (String × ℚ)) : ℚ :=
  (((txs.map Tx.symbol).dedup).map (fun s =>
    let n := net_units txs s
    if n ≤ 0 then 0
    else
      match prices.lookup s with
      | none => 0
      | some p => n * p)).sum

/-- `get_position_value` from `overamt_task.py`: `net_units * current_price`,
or `0.0` when the symbol has no price row. -/
def get_position_value (txs : List Tx) (prices : List (String × ℚ)) (s : String) : ℚ :=
  match prices.lookup s with
  | none => 0
  | some p => net_units txs s * p

/-- The flag computation of `run_update` (`overamt_task.py` lines 162–167):
`'U'` if `diff_amount < -1`, `'H'` if `-1 < diff_amount < 0`, else `'O'`. -/
def compute_flag (diff_amount : ℚ) : String :=
  if diff_amount < -1 then "U"
  else if -1 < diff_amount ∧ diff_amount < 0 then "H"
  else "O"

/-- The per-symbol body of `run_update`'s loop: skip the row if the rounded
target value is zero, otherwise store the rounded difference and its flag. -/
def process_mpt_row (txs : List Tx) (prices : List (String × ℚ)) (pv : ℚ)
    (r : MptRow) : MptRow :=
  let target_value := py_round (r.target_alloc * pv) 2
  if target_value = 0 then r
  else
    let position_value := get_position_value txs prices r.symbol
    let diff_amount := py_round (position_value - target_value) 2
    { r with overamt := diff_amount, flag := compute_flag diff_amount }

/-- `run_update` from `overamt_task.py`: compute the portfolio value; if it is
`≤ 0`, return failure without touching any MPT row; otherwise rewrite every
MPT row (single commit at the end — modelled by returning the whole new table)
and return success. -/
def run_update (db : Db) : Bool × List MptRow :=
  let pv := calculate_portfolio_value db.transactions db.prices
  if pv ≤ 0 then (false, db.mpt)
  else (true, db.mpt.map (process_mpt_row db.transactions db.prices pv))

/-- Effective remaining units as the lot-ledger SQL computes them
(`routes.py` `get_position`: `CASE WHEN units_remaining IS NULL THEN units
ELSE units_remaining END`). -/
def effective_units (t : Tx) : ℚ :=
  match t.units_remaining with
  | none => t.units
  | some u => u

/-- The Lot Ledger's net position (`routes.py` `get_position`): sum of
effective remaining units over Buy transactions of the symbol with NULL
disposition. -/
def ledger_net_units (txs : List Tx) (s : String) : ℚ :=
  ((txs.filter (fun t => t.symbol == s && t.xtype == "Buy" && t.disposition.isNone)).map
    effective_units).sum

/-- The row predicate of `close_lots`'s UPDATE (`crudroutes.py`):
`id IN ids AND (disposition IS NULL OR disposition != 'sold')`. -/
def close_cond (ids : List ℤ) (t : Tx) : Bool :=
  ids.contains t.id && (t.disposition.isNone || t.disposition != some "sold")

/-- `close_lots` from `crudroutes.py`. An empty id list is rejected up front
(HTTP 400). Otherwise a single UPDATE sets `disposition = 'sold'` on every
row matching `close_cond` and is committed; if zero rows changed the caller
gets HTTP 404 ("no open lots found … or already closed"), else the changed
count. The pair returned is (table after the call, outcome); `Except.error`
carries the HTTP status code. -/
def close_lots (ids : List ℤ) (txs : List Tx) : List Tx × Except ℕ ℕ :=
  if ids.isEmpty then (txs, Except.error 400)
  else
    let updated := txs.map (fun t =>
      if close_cond ids t then { t with disposition := some "sold" } else t)
    let rowcount := txs.countP (close_cond ids)
    if rowcount = 0 then (updated, Except.error 404)
    else (updated, Except.ok rowcount)

/-- Python's `lot.units_remaining or lot.units` / `lot.units_remaining if
lot.units_remaining else lot.units`: by *truthiness*, both `None` and `0`
fall back to `units`. Used by `get_open_lots` and `get_potential_lots` in
`routes.py`. -/
def truthy_units (t : Tx) : ℚ :=
  match t.units_remaining with
  | none => t.units
  | some u => if u = 0 then t.units else u

/-- One element of the list returned by `get_open_lots` (`routes.py`
`/open-lots`); `units_out`/`units_remaining_out`/`price_out` are the echoed
`units`/`units_remaining`/`price` fields of the row. -/
structure OpenLotView where
  id : ℤ
  acct : String
  symbol : String
  units_out : ℚ
  units_remaining_out : Option ℚ
  price_out : Option ℚ
  term : String
  lot_basis : Option ℚ
  current_value : ℚ
  profit_loss : Option ℚ
  pl_pct : Option ℚ
deriving DecidableEq, Repr

/-- The dictionary built for one lot by `get_open_lots` (`routes.py`).
Evaluation follows the Python dict literal: the `term` entry runs
`datetime.strptime` on a string `date_new` with no try/except, so an
unparseable date string raises `ValueError`; `current_value` uses
`current_prices.get(symbol, 0)` (default 0, never None); `profit_loss` and
`pl_pct` are None unless `price` is non-NULL *and* the symbol has a current
price; `pl_pct` divides by `units * price` with no zero guard, so a lot
with `price = 0` (and a priced symbol) raises `ZeroDivisionError`. -/
def process_open_lot (prices : List (String × ℚ)) (today : ℤ) (t : Tx) :
    Except String OpenLotView :=
  match t.date_new with
  | DateField.str none => Except.error "ValueError"
  | _ =>
    let is_long : Bool :=
      match t.date_new with
      | DateField.str (some d) => decide (today - d.absDay > 365)
      | _ => false
    let u := truthy_units t
    let cp0 : ℚ := (prices.lookup t.symbol).getD 0
    let lot_basis : Option ℚ :=
      match t.price with
      | some p => some (py_round (u * p) 2)
      | none => none
    let current_value := py_round (u * cp0) 2
    match t.price, prices.lookup t.symbol with
    | some p, some cp =>
      if u * p = 0 then Except.error "ZeroDivisionError"
      else
        Except.ok
          { id := t.id, acct := t.acct, symbol := t.symbol,
            units_out := t.units, units_remaining_out := t.units_remaining,
            price_out := t.price,
            term := if is_long then "Long-term" else "Short-term",
            lot_basis := lot_basis, current_value := current_value,
            profit_loss := some (py_round (u * cp - u * p) 2),
            pl_pct := some (py_round ((u * cp - u * p) / (u * p) * 100) 2) }
    | _, _ =>
      Except.ok
        { id := t.id, acct := t.acct, symbol := t.symbol,
          units_out := t.units, units_remaining_out := t.units_remaining,
          price_out := t.price,
          term := if is_long then "Long-term" else "Short-term",
          lot_basis := lot_basis, current_value := current_value,
          profit_loss := none, pl_pct := none }

/-- `get_open_lots` (`routes.py` `/open-lots`): assemble the symbol→price map
once, then build the per-lot dictionaries; any per-lot exception escapes the
list comprehension and fails the whole request (HTTP 500). `lots` is the
result of `SELECT * FROM open_lots` (the open-lot rows fetched from the
store). -/
def get_open_lots (prices : List (String × ℚ)) (today : ℤ) (lots : List Tx) :
    Except String (List OpenLotView) :=
  lots.mapM (process_open_lot prices today)

/-- Stable insert for a descending sort by a rational key: `a` goes in front
of the first element with a strictly smaller key, after elements with an
equal or larger key. -/
def ins_desc {α : Type} (key : α → ℚ) (a : α) : List α → List α
  | [] => [a]
  | b :: t => if key b ≤ key a then a :: b :: t else b :: ins_desc key a t

/-- Stable descending sort by a rational key (insertion sort): models both
SQL `ORDER BY … DESC` and Python's stable `list.sort(key=…, reverse=True)`. -/
def sort_desc_by {α : Type} (key : α → ℚ) : List α → List α
  | [] => []
  | a :: t => ins_desc key a (sort_desc_by key t)

/-- One candidate dictionary appended by `get_potential_lots` (`routes.py`).
`date` is the Python local `purchase_date` at append time (`none` models a
Python `None`). -/
structure Candidate where
  account : String
  symbol : String
  date : Option PyDate
  units : ℚ
  current_price : ℚ
  current_value : ℚ
  profit : ℚ
  profit_pct : ℚ
  is_long_term : Bool
  target_diff : ℚ
deriving DecidableEq, Repr

/-- The mutable locals of `get_potential_lots`'s loops: the accumulated
candidate list and the binding state of the Python local `purchase_date`
(`none` = never assigned so far; referencing it then raises `NameError`). -/
structure ScanState where
  cands : List Candidate
  purchase_date : Option (Option PyDate)
deriving Repr

/-- The body of `get_potential_lots`'s inner lot loop (`routes.py`), for one
open Buy lot of an overweight symbol:
* `lot.price == 0` skips the lot; a NULL price is not equal to 0, and then
  `lot.price >= current_price` on `None` raises `TypeError`;
* `lot.price >= current_price` skips non-appreciated lots;
* units come from `truthy_units` (Python truthiness: `units_remaining` of
  `None` *or* `0` falls back to `units`);
* `profit_pct = round(profit / cost * 100, 3)` raises `ZeroDivisionError`
  when `cost = price * units = 0` (i.e. `units = 0`, since `price ≠ 0` here);
* the threshold test skips lots with small profit or value;
* the date try/except: a parsed string binds `purchase_date` and computes
  the long-term test; a NULL `date_new` binds `purchase_date` to `None` and
  the `today - None` `TypeError` is caught (`is_long_term = False`); an
  unparseable string raises `ValueError` before `purchase_date` is assigned,
  the handler sets `is_long_term = False`, and the subsequent dict literal
  reads `purchase_date` — `NameError` if it was never bound. -/
def process_potential_lot (today : ℤ) (profit_threshold lot_value_threshold : ℚ)
    (symbol : String) (target_diff current_price : ℚ)
    (st : ScanState) (lot : Tx) : Except String ScanState :=
  match lot.price with
  | none => Except.error "TypeError"
  | some p =>
    if p = 0 then Except.ok st
    else if current_price ≤ p then Except.ok st
    else
      let units := truthy_units lot
      let current_value := py_round (current_price * units) 2
      let cost := p * units
      if cost = 0 then Except.error "ZeroDivisionError"
      else
        let profit := py_round (current_value - cost) 2
        let profit_pct := py_round (profit / cost * 100) 3
        if profit < profit_threshold ∨ current_value < lot_value_threshold then
          Except.ok st
        else
          match lot.date_new with
          | DateField.str (some d) =>
            Except.ok
              ⟨st.cands ++ [⟨lot.acct, symbol, some d, units, current_price,
                current_value, profit, profit_pct,
                decide (today - d.absDay > 365), target_diff⟩], some (some d)⟩
          | DateField.null =>
            Except.ok
              ⟨st.cands ++ [⟨lot.acct, symbol, none, units, current_price,
                current_value, profit, profit_pct, false, target_diff⟩],
                some none⟩
          | DateField.str none =>
            match st.purchase_date with
            | none => Except.error "NameError"
            | some prev =>
              Except.ok
                ⟨st.cands ++ [⟨lot.acct, symbol, prev, units, current_price,
                  current_value, profit, profit_pct, false, target_diff⟩],
                  some prev⟩

/-- The body of `get_potential_lots`'s outer loop over overweight MPT rows:
re-check the threshold (redundantly — the SQL already filtered), skip symbols
with no current price, and fold the lot loop over the symbol's Buy
transactions with NULL disposition (the SQL has *no* `units_remaining`
filter). -/
def process_overweight_position (txs : List Tx) (prices : List (String × ℚ))
    (today : ℤ) (profit_threshold lot_value_threshold overweight_threshold : ℚ)
    (st : ScanState) (row : MptRow) : Except String ScanState :=
  if row.overamt < overweight_threshold then Except.ok st
  else
    match prices.lookup row.symbol with
    | none => Except.ok st
    | some current_price =>
      (txs.filter (fun t =>
        t.symbol == row.symbol && t.xtype == "Buy" && t.disposition.isNone)).foldlM
        (process_potential_lot today profit_threshold lot_value_threshold
          row.symbol row.overamt current_price) st

/-- `get_potential_lots` (`routes.py` `/potential-lots`): select MPT rows with
`flag = 'O'` and `overamt >` threshold ordered by `overamt` descending, scan
their lots (the Python local `purchase_date` persists across lots *and*
symbols), and sort all collected candidates by `profit_pct` descending. Any
uncaught per-lot exception fails the whole request (HTTP 500). -/
def get_potential_lots (db : Db) (today : ℤ)
    (profit_threshold lot_value_threshold overweight_threshold : ℚ) :
    Except String (List Candidate) := do
  let positions := sort_desc_by (fun r : MptRow => r.overamt)
    (db.mpt.filter (fun r => r.flag == "O" && overweight_threshold < r.overamt))
  let st ← positions.foldlM
    (process_overweight_position db.transactions db.prices today
      profit_threshold lot_value_threshold overweight_threshold)
    ⟨[], none⟩
  pure (sort_desc_by (fun c => c.profit_pct) st.cands)

/-- A row fetched by `detect_payment_frequency`'s query
(`dividend_analysis.py`): dividend-type transactions of the symbol in the
trailing 36-month window, ordered by date. `payment_date` is the result of
`datetime.strptime` on the row's date string (`none` = the
`ValueError`/`IndexError` that the parse loop catches and skips). -/
structure DivRow where
  payment_date : Option PyDate
  symbol : String
  price : ℚ
  units : ℚ
deriving DecidableEq, Repr

/-- Consecutive day-gaps between payment dates
(`(payment_dates[i] - payment_dates[i-1]).days`). -/
def intervals_of (ds : List PyDate) : List ℤ :=
  (ds.zip ds.tail).map (fun ab => ab.2.absDay - ab.1.absDay)

/-- Increment the count of `y` in an insertion-ordered association list
(models the `years_data` Python dict). -/
def bump_year : List (ℤ × ℕ) → ℤ → List (ℤ × ℕ)
  | [], y => [(y, 1)]
  | (a, n) :: t, y => if a = y then (a, n + 1) :: t else (a, n) :: bump_year t y

/-- Payments per calendar year in date order (the `years_data` dict of
`dividend_analysis.py`). -/
def year_counts (ds : List PyDate) : List (ℤ × ℕ) :=
  ds.foldl (fun acc d => bump_year acc d.year) []

/-- `min(years_data.keys())` (junk value 0 on an empty list — only used when
payment dates exist). -/
def min_key (l : List ℤ) : ℤ :=
  match l with
  | [] => 0
  | a :: t => t.foldl min a

/-- `max(years_data.keys())` (junk value 0 on an empty list). -/
def max_key (l : List ℤ) : ℤ :=
  match l with
  | [] => 0
  | a :: t => t.foldl max a

/-- The dictionary returned by `detect_payment_frequency`. The two early
returns (`insufficient_data`, `parsing_error`) omit the
`avg_interval_days` / `interval_std_dev` / `payments_by_year` keys, hence
those fields are `Option`s. `confidence` is real-valued because the full
path computes a square root. -/
structure FreqResult where
  symbol : String
  frequency : String
  confidence : ℝ
  reason : String
  data_points : ℕ
  intervals : List ℤ
  avg_interval_days : Option ℝ
  interval_std_dev : Option ℝ
  payments_by_year : Option (List (ℤ × ℕ))

/-- Round-half-to-even on a real (Python 3 `round`), classical because
comparison of reals is not computable. -/
noncomputable def round_half_even_real (x : ℝ) : ℤ :=
  let f := ⌊x⌋
  let r := x - (f : ℝ)
  if r < 1/2 then f
  else if 1/2 < r then f + 1
  else if 2 ∣ f then f else f + 1

/-- Python's `round(x, d)` on a real. -/
noncomputable def py_round_real (x : ℝ) (d : ℕ) : ℝ :=
  (round_half_even_real (x * 10 ^ d) : ℝ) / 10 ^ d

/-- `detect_payment_frequency` from `dividend_analysis.py`, over the fetched
rows of its dividend query:
1. fewer than 3 rows → the `insufficient_data` fallback (frequency
   "quarterly", confidence 0.0, `data_points` = number of rows);
2. parse dates, skipping failures; no intervals → `parsing_error` fallback;
3. mean day-gap and population standard deviation;
4. mean ∈ [25,35] and σ < 10 → monthly, confidence `0.9 - σ/100`;
   mean ∈ [80,100] and σ < 15 → quarterly, confidence `0.9 - σ/150`;
   else average payments over full calendar years (excluding the first and
   last year present): ≥ 10 → monthly 0.7, in [3,5] → quarterly 0.7,
   otherwise the quarterly/0.0/"inconclusive" default (a `None` or zero
   average is falsy and also keeps the default). -/
noncomputable def detect_payment_frequency (symbol : String) (rows : List DivRow) :
    FreqResult :=
  if rows.length < 3 then
    { symbol := symbol, frequency := "quarterly", confidence := 0,
      reason := "insufficient_data", data_points := rows.length,
      intervals := [], avg_interval_days := none, interval_std_dev := none,
      payments_by_year := none }
  else
    let payment_dates := rows.filterMap DivRow.payment_date
    let intervals := intervals_of payment_dates
    if intervals.isEmpty then
      { symbol := symbol, frequency := "quarterly", confidence := 0,
        reason := "parsing_error", data_points := rows.length,
        intervals := [], avg_interval_days := none, interval_std_dev := none,
        payments_by_year := none }
    else
      let avg_interval : ℝ := ((intervals.sum : ℤ) : ℝ) / intervals.length
      let variance : ℝ :=
        ((intervals.map (fun x => ((x : ℝ) - avg_interval) ^ 2)).sum) / intervals.length
      let std_dev : ℝ := Real.sqrt variance
      let years_data := year_counts payment_dates
      let keys := years_data.map Prod.fst
      let full_years := ((years_data.filter (fun yc =>
        yc.1 ≠ min_key keys ∧ yc.1 ≠ max_key keys)).map Prod.snd)
      let avg_payments_per_year : Option ℚ :=
        if full_years.isEmpty then none
        else some ((full_years.sum : ℚ) / full_years.length)
      let finish := fun (frequency : String) (confidence : ℝ) (reason : String) =>
        { symbol := symbol, frequency := frequency,
          confidence := py_round_real confidence 2, reason := reason,
          data_points := rows.length, intervals := intervals,
          avg_interval_days := some (py_round_real avg_interval 1),
          interval_std_dev := some (py_round_real std_dev 1),
          payments_by_year := some years_data : FreqResult }
      if 25 ≤ avg_interval ∧ avg_interval ≤ 35 ∧ std_dev < 10 then
        finish "monthly" (0.9 - std_dev / 100) "interval_analysis"
      else if 80 ≤ avg_interval ∧ avg_interval ≤ 100 ∧ std_dev < 15 then
        finish "quarterly" (0.9 - std_dev / 150) "interval_analysis"
      else
        match avg_payments_per_year with
        | some a =>
          if a ≠ 0 then
            if 10 ≤ a then finish "monthly" 0.7 "payment_count"
            else if 3 ≤ a ∧ a ≤ 5 then finish "quarterly" 0.7 "payment_count"
            else finish "quarterly" 0 "inconclusive"
          else finish "quarterly" 0 "inconclusive"
        | none => finish "quarterly" 0 "inconclusive"

/-- The x-values of the regression of `get_symbol_prediction`
(`dividend_routes.py`): period indices `1..N`. -/
def period_indices (n : ℕ) : List ℚ :=
  (List.range n).map (fun i => (i : ℚ) + 1)

/-- The denominator of the closed-form OLS slope in `get_symbol_prediction`:
`sum_xx - dividend_count * average_x * average_x`. Python divides by it with
no guard, so the caller checks it for zero (`ZeroDivisionError`). -/
def slope_denominator (ys : List ℚ) : ℚ :=
  let n : ℚ := ys.length
  let sum_x := (period_indices ys.length).sum
  let sum_xx := ((period_indices ys.length).map (fun x => x ^ 2)).sum
  let average_x := sum_x / n
  sum_xx - n * average_x * average_x

/-- The closed-form OLS fit of `get_symbol_prediction`: `(slope, intercept)`
for `y = intercept + slope * x` over `x = 1..N`. -/
def ols_fit (ys : List ℚ) : ℚ × ℚ :=
  let n : ℚ := ys.length
  let sum_x := (period_indices ys.length).sum
  let sum_y := ys.sum
  let sum_xy := (ys.enum.map (fun p => ((p.1 : ℚ) + 1) * p.2)).sum
  let average_x := sum_x / n
  let average_y := sum_y / n
  let slope := (sum_xy - n * average_x * average_y) / slope_denominator ys
  let intercept := average_y - slope * average_x
  (slope, intercept)

/-- The body returned by `get_symbol_prediction` (`dividend_routes.py`):
the full forecast series (as (day-number, cost) pairs) and its last three
entries. -/
structure PredictionResult where
  symbol : String
  is_monthly : Bool
  last_three : List (ℤ × ℚ)
  complete_forecast : List (ℤ × ℚ)
deriving DecidableEq, Repr

/-- `get_symbol_prediction` from `dividend_routes.py`, over the aggregated
per-period dividend history (the `SUM(price*units) … GROUP BY month` totals,
date-ordered), the monthly/quarterly choice, the parsed last history date and
the `MAX_PREDICTION_DATE` cutoff (both as day numbers):
* empty history → HTTP 404;
* closed-form OLS fit (a zero slope denominator — exactly the one-period
  case — raises `ZeroDivisionError`, which the route reports as HTTP 500);
* the forecast loop emits, for `i = 0, 1, …`, a point dated
  `last_date + 30 * interval * (i+1)` with cost
  `round(max(intercept + slope * (N + i * interval), 0), 2)`, stopping at the
  first date past the cutoff; the loop therefore runs
  `max 0 ((max_date - last_date) / (30 * interval))` times (integer division,
  modelling the `while True … break`);
* `last_three` is `forecast[-3:]` (the whole list when shorter than 3). -/
def get_symbol_prediction (symbol : String) (history : List ℚ) (is_monthly : Bool)
    (last_date max_prediction_date : ℤ) : Except String PredictionResult :=
  if history.isEmpty then Except.error "404: no dividend history"
  else if slope_denominator history = 0 then Except.error "ZeroDivisionError"
  else
    let fit := ols_fit history
    let slope := fit.1
    let intercept := fit.2
    let dividend_count : ℚ := history.length
    let interval : ℤ := if is_monthly then 1 else 3
    let steps : ℕ := (max 0 ((max_prediction_date - last_date) / (30 * interval))).toNat
    let forecast := (List.range steps).map (fun i =>
      let next_date := last_date + 30 * interval * ((i : ℤ) + 1)
      let predicted := intercept + slope * (dividend_count + (i : ℚ) * (interval : ℚ))
      let clamped := if predicted < 0 then 0 else predicted
      (next_date, py_round clamped 2))
    Except.ok
      { symbol := symbol, is_monthly := is_monthly,
        last_three := forecast.drop (forecast.length - 3),
        complete_forecast := forecast }

/-- The cost of the first forecast point of `get_symbol_prediction`, when the
call succeeds and produces at least one point. -/
def first_forecast_cost (history : List ℚ) (is_monthly : Bool)
    (last_date max_prediction_date : ℤ) : Option ℚ :=
  match get_symbol_prediction "X" history is_monthly last_date max_prediction_date with
  | Except.ok r => r.complete_forecast.head?.map Prod.snd
  | Except.error _ => none

deriving instance DecidableEq for Except

/-- The cost series of `get_symbol_prediction`'s forecast (empty when the
call fails). -/
def forecast_costs (history : List ℚ) (is_monthly : Bool)
    (last_date max_prediction_date : ℤ) : List ℚ :=
  match get_symbol_prediction "X" history is_monthly last_date max_prediction_date with
  | Except.ok r => r.complete_forecast.map Prod.snd
  | Except.error _ => []

/-- A one-transaction store putting the rebalance batch exactly on the
`overamt = -1.00` boundary: one open Buy lot of 1 unit of "A" priced at 99,
and a target allocation of 100/99, so that the target value is 100, the
position value 99 and the stored difference exactly -1. -/
def db_hold_boundary : Db :=
  ⟨[⟨1, DateField.null, "A", "Buy", "FID", 1, some 99, some 1, none, none⟩],
   [("A", 99)], [⟨"A", 100/99, 0, "X"⟩]⟩

unseal Rat.mul Rat.add Rat.sub Rat.inv in
/-- C1, counterexample. The claim says `overamt = -1.00` exactly yields flag
"Hold"; running the batch on `db_hold_boundary` persists `overamt = -1` with
flag `'O'` (Overweight), not `'H'`: the source's Hold test is
`diff_amount > -1 and diff_amount < 0`, strict at `-1`. -/
theorem flag_at_minus_one_is_overweight_cex :
    run_update db_hold_boundary = (true, [⟨"A", 100/99, -1, "O"⟩]) ∧ "O" ≠ "H" := by
  decide

/-- C1, amended. The persisted flag is determined by the rounded overamt as:
"Underweight" iff overamt < -1, "Hold" iff -1 < overamt < 0 (strict at -1),
and "Overweight" iff overamt = -1 or overamt ≥ 0; every processed MPT row
(one whose rounded target value is nonzero) is persisted with exactly this
flag of its rounded difference. -/
theorem flag_thresholds_amended :
    (∀ d : ℚ, (compute_flag d = "U" ↔ d < -1) ∧
      (compute_flag d = "H" ↔ -1 < d ∧ d < 0) ∧
      (compute_flag d = "O" ↔ d = -1 ∨ 0 ≤ d)) ∧
    (∀ (txs : List Tx) (prices : List (String × ℚ)) (pv : ℚ) (r : MptRow),
      py_round (r.target_alloc * pv) 2 ≠ 0 →
      (process_mpt_row txs prices pv r).flag =
        compute_flag (py_round
          (get_position_value txs prices r.symbol - py_round (r.target_alloc * pv) 2) 2)) := by
  constructor
  · intro d
    refine ⟨?_, ?_, ?_⟩
    · unfold compute_flag
      split_ifs with h1 h2
      · exact iff_of_true rfl h1
      · exact iff_of_false (by decide) h1
      · exact iff_of_false (by decide) h1
    · unfold compute_flag
      split_ifs with h1 h2
      · exact iff_of_false (by decide) (by intro hh; linarith [hh.1])
      · exact iff_of_true rfl h2
      · exact iff_of_false (by decide) h2
    · unfold compute_flag
      split_ifs with h1 h2
      · refine iff_of_false (by decide) ?_
        rintro (he | hge)
        · rw [he] at h1; exact absurd h1 (by norm_num)
        · linarith
      · refine iff_of_false (by decide) ?_
        rintro (he | hge)
        · rw [he] at h2; exact absurd h2.1 (by norm_num)
        · linarith [h2.2]
      · refine iff_of_true rfl ?_
        by_cases hd : d = -1
        · exact Or.inl hd
        · right
          have hle : -1 ≤ d := not_lt.mp h1
          have hlt : -1 < d := lt_of_le_of_ne hle (Ne.symm hd)
          by_contra hneg
          exact h2 ⟨hlt, lt_of_not_le hneg⟩
  · intro txs prices pv r h
    simp only [process_mpt_row]
    rw [if_neg h]

unseal Rat.mul Rat.add Rat.sub Rat.inv in
/-- Witness for `flag_thresholds_amended`: the boundary value -1 is flagged
Overweight, and the concrete `db_hold_boundary` MPT row, whose rounded target
value 100 is nonzero, is persisted with the flag of its rounded difference. -/
theorem flag_thresholds_amended_witness :
    compute_flag (-1) = "O" ∧
    (process_mpt_row db_hold_boundary.transactions db_hold_boundary.prices 99
      ⟨"A", 100/99, 0, "X"⟩).flag =
      compute_flag (py_round
        (get_position_value db_hold_boundary.transactions db_hold_boundary.prices "A" -
          py_round ((100/99) * 99) 2) 2) :=
  ⟨(flag_thresholds_amended.1 (-1)).2.2.mpr (Or.inl rfl),
   flag_thresholds_amended.2 db_hold_boundary.transactions db_hold_boundary.prices 99
     ⟨"A", 100/99, 0, "X"⟩ (by decide)⟩

/-- C3: if the computed total portfolio value is not positive, `run_update`
reports failure and leaves every MPT row (overamt and flag) exactly as it
was: the batch aborts before any UPDATE is issued. -/
theorem run_update_aborts_on_nonpositive_value (db : Db)
    (h : calculate_portfolio_value db.transactions db.prices ≤ 0) :
    run_update db = (false, db.mpt) := by
  simp only [run_update]
  rw [if_pos h]

/-- Witness for `run_update_aborts_on_nonpositive_value`: the empty store has
portfolio value 0 and the batch returns failure with the MPT table
untouched. -/
theorem run_update_aborts_witness :
    calculate_portfolio_value ([] : List Tx) [] ≤ 0 ∧
    run_update ⟨[], [], []⟩ = (false, []) :=
  ⟨by decide, run_update_aborts_on_nonpositive_value ⟨[], [], []⟩ (by decide)⟩

/-- A store whose one Buy lot has been closed by `close_lots` (disposition
'sold', nothing remaining) with no offsetting Sell row: the Lot Ledger's net
position is 0, but `get_position_value` still counts the full 10 bought
units. -/
def closed_lot_tx : Tx :=
  ⟨1, DateField.null, "A", "Buy", "FID", 10, some 5, none, none, some "sold"⟩

unseal Rat.mul Rat.add Rat.sub Rat.inv in
/-- C2, counterexample. With `closed_lot_tx` as the only transaction and a
current price of 5, the Rebalance Engine's `get_position_value` returns 50
while the Lot Ledger's net position times price is 0: the engine ignores
disposition and units_remaining and uses total Buy minus total Sell units. -/
theorem position_value_differs_from_ledger_cex :
    get_position_value [closed_lot_tx] [("A", 5)] "A" = 50 ∧
    ledger_net_units [closed_lot_tx] "A" * 5 = 0 ∧ (50 : ℚ) ≠ 0 := by
  decide

/-- C2, amended. `get_position_value` computes the position value from total
Buy units minus total Sell units over *all* transactions of the symbol,
regardless of disposition or units_remaining: with a price row it is that
net times the price, and it is 0.0 when the symbol has no price row; and
with a price row it equals the Lot Ledger's net position times the price
*exactly when* the ledger sum coincides with Buy-minus-Sell units or the
price is zero. -/
theorem get_position_value_amended :
    (∀ (txs : List Tx) (prices : List (String × ℚ)) (s : String) (p : ℚ),
      prices.lookup s = some p →
      get_position_value txs prices s = net_units txs s * p) ∧
    (∀ (txs : List Tx) (prices : List (String × ℚ)) (s : String),
      prices.lookup s = none →
      get_position_value txs prices s = 0) ∧
    (∀ (txs : List Tx) (prices : List (String × ℚ)) (s : String) (p : ℚ),
      prices.lookup s = some p →
      (get_position_value txs prices s = ledger_net_units txs s * p ↔
        net_units txs s = ledger_net_units txs s ∨ p = 0)) := by
  refine ⟨?_, ?_, ?_⟩
  · intro txs prices s p hp
    unfold get_position_value
    rw [hp]
  · intro txs prices s hp
    unfold get_position_value
    rw [hp]
  · intro txs prices s p hp
    unfold get_position_value
    rw [hp]
    exact mul_eq_mul_right_iff

/-- A single fully open Buy lot of 10 units of "A" at price 5. -/
def fully_open_tx : Tx := ⟨1, DateField.null, "A", "Buy", "FID", 10, some 5, some 10, none, none⟩

unseal Rat.mul Rat.add Rat.sub Rat.inv in
/-- Witness for `get_position_value_amended`, at concrete stores: with a
price row the value is net units times price; with no price row for "A" it
is 0; and the agreement with the Lot Ledger is equivalent to the sums
coinciding (or a zero price). -/
theorem get_position_value_amended_witness :
    get_position_value [fully_open_tx] [("A", 5)] "A" = net_units [fully_open_tx] "A" * 5 ∧
    get_position_value [fully_open_tx] [("B", 5)] "A" = 0 ∧
    (get_position_value [fully_open_tx] [("A", 5)] "A" =
        ledger_net_units [fully_open_tx] "A" * 5 ↔
      net_units [fully_open_tx] "A" = ledger_net_units [fully_open_tx] "A" ∨ (5 : ℚ) = 0) :=
  ⟨get_position_value_amended.1 [fully_open_tx] [("A", 5)] "A" 5 rfl,
   get_position_value_amended.2.1 [fully_open_tx] [("B", 5)] "A" rfl,
   get_position_value_amended.2.2 [fully_open_tx] [("A", 5)] "A" 5 rfl⟩

/-- C4: `close_lots` is idempotent against double-close. After any successful
call (one that actually changed `n` rows), an immediate second call with the
same id list matches zero rows — every listed id now has disposition 'sold' —
so it changes nothing (the table is returned unchanged) and reports the
zero-changed outcome as the 404 not-found/no-op condition, not success. -/
theorem close_lots_idempotent (ids : List ℤ) (txs txs1 : List Tx) (n : ℕ)
    (h : close_lots ids txs = (txs1, Except.ok n)) :
    close_lots ids txs1 = (txs1, Except.error 404) := by
  unfold close_lots at h ⊢
  by_cases hids : ids.isEmpty
  · rw [if_pos hids] at h
    simp at h
  · rw [if_neg hids] at h
    by_cases hc : txs.countP (close_cond ids) = 0
    · rw [if_pos hc] at h
      simp at h
    · rw [if_neg hc] at h
      have htxs1 : txs1 = txs.map (fun t =>
          if close_cond ids t then { t with disposition := some "sold" } else t) := by
        have h1 := congrArg Prod.fst h
        simpa using h1.symm
      have hall : ∀ t ∈ txs1, close_cond ids t = false := by
        intro t ht
        rw [htxs1] at ht
        rcases List.mem_map.mp ht with ⟨t0, ht0, rfl⟩
        by_cases h0 : close_cond ids t0 = true
        · rw [if_pos h0]
          simp [close_cond]
        · rw [if_neg h0]
          simpa using h0
      rw [if_neg hids]
      have hcnt : txs1.countP (close_cond ids) = 0 :=
        List.countP_eq_zero.mpr (by intro a ha; simp [hall a ha])
      rw [if_pos hcnt]
      have hmap : txs1.map (fun t =>
          if close_cond ids t then { t with disposition := some "sold" } else t) = txs1 := by
        have hid : ∀ t ∈ txs1, (if close_cond ids t then
            { t with disposition := some "sold" } else t) = id t := by
          intro t ht
          rw [if_neg (by simp [hall t ht])]
          rfl
        rw [List.map_congr_left hid, List.map_id]
      rw [hmap]

/-- A single fully open Buy lot, closeable by id 1. -/
def open_lot_tx : Tx := ⟨1, DateField.null, "A", "Buy", "FID", 10, some 5, some 10, none, none⟩

/-- `open_lot_tx` after `close_lots [1]` has marked it sold. -/
def sold_lot_tx : Tx := { open_lot_tx with disposition := some "sold" }

/-- Witness for `close_lots_idempotent`: closing id 1 once succeeds with one
row changed; the immediate second call changes nothing and reports 404. -/
theorem close_lots_idempotent_witness :
    close_lots [1] [sold_lot_tx] = ([sold_lot_tx], Except.error 404) :=
  close_lots_idempotent [1] [open_lot_tx] [sold_lot_tx] 1 rfl

/-- A Buy lot with `units_remaining = 0` but NULL disposition: by the spec's
open-lot definition this lot is closed (nothing remains), yet the selector's
SQL only filters on disposition. Bought at 50, 100 original units. -/
def zero_remaining_lot : Tx :=
  ⟨1, DateField.str (some ⟨2025, 10000⟩), "A", "Buy", "FID", 100, some 50, some 0, none, none⟩

/-- A store where "A" is overweight (flag 'O', overamt 10 > threshold 8.6),
priced at 60, whose only lot is `zero_remaining_lot`. -/
def db_zero_remaining : Db :=
  ⟨[zero_remaining_lot], [("A", 60)], [⟨"A", 0, 10, "O"⟩]⟩

unseal Rat.mul Rat.add Rat.sub Rat.inv in
/-- C5, counterexample. The claim says a Buy lot with `units_remaining = 0`
is closed and never contributes a sale candidate; on `db_zero_remaining` the
scan (default thresholds 0.6 / 1.0 / 8.6, today = day 10100) returns exactly
that lot as a candidate, and with its *full* 100 original units: Python's
`lot.units_remaining if lot.units_remaining else lot.units` treats the
falsy 0 like None. -/
theorem zero_units_remaining_contributes_cex :
    zero_remaining_lot.units_remaining = some 0 ∧
    get_potential_lots db_zero_remaining 10100 (6/10) 1 (86/10) =
      Except.ok [⟨"FID", "A", some ⟨2025, 10000⟩, 100, 60, 6000, 1000, 20, false, 10⟩] := by
  decide

/-- C5, amended. The selector scans every Buy lot with NULL disposition of a
qualifying symbol (the SQL has no `units_remaining` filter); effective units
are `units_remaining` only when it is non-null *and* non-zero, else the
original `units`; in particular a lot with `units_remaining = 0` is treated
as fully open and, when it passes the price/profit/value tests, contributes
a candidate carrying its full original units. -/
theorem potential_lots_truthiness_amended :
    (∀ t : Tx, t.units_remaining = none → truthy_units t = t.units) ∧
    (∀ t : Tx, t.units_remaining = some 0 → truthy_units t = t.units) ∧
    (∀ (t : Tx) (u : ℚ), t.units_remaining = some u → u ≠ 0 → truthy_units t = u) ∧
    (∀ (today : ℤ) (pt lvt td cp : ℚ) (s : String) (st : ScanState) (lot : Tx)
      (p : ℚ) (d : PyDate) (cv profit pct : ℚ),
      lot.units_remaining = some 0 →
      lot.price = some p → p ≠ 0 → ¬ cp ≤ p →
      p * lot.units ≠ 0 →
      lot.date_new = DateField.str (some d) →
      cv = py_round (cp * lot.units) 2 →
      profit = py_round (cv - p * lot.units) 2 →
      pct = py_round (profit / (p * lot.units) * 100) 3 →
      ¬ (profit < pt ∨ cv < lvt) →
      process_potential_lot today pt lvt s td cp st lot =
        Except.ok ⟨st.cands ++ [⟨lot.acct, s, some d, lot.units, cp, cv, profit, pct,
          decide (today - d.absDay > 365), td⟩], some (some d)⟩) := by
  refine ⟨?_, ?_, ?_, ?_⟩
  · intro t h
    simp [truthy_units, h]
  · intro t h
    simp [truthy_units, h]
  · intro t u h hu
    simp [truthy_units, h, hu]
  · intro today pt lvt td cp s st lot p d cv profit pct hur hp hp0 hcp hcost hd hcv hprofit hpct hthr
    subst hcv
    subst hprofit
    subst hpct
    have ht : truthy_units lot = lot.units := by simp [truthy_units, hur]
    simp only [process_potential_lot, hp, hd, ht]
    rw [if_neg hp0, if_neg hcp, if_neg hcost, if_neg hthr]

unseal Rat.mul Rat.add Rat.sub Rat.inv in
/-- Witness for `potential_lots_truthiness_amended`: the concrete
`zero_remaining_lot` (bought at 50, current price 60, thresholds
0.6 / 1.0) is appended as a candidate with 100 units. -/
theorem potential_lots_truthiness_amended_witness :
    process_potential_lot 10100 (6/10) 1 "A" 10 60 ⟨[], none⟩ zero_remaining_lot =
      Except.ok ⟨[⟨"FID", "A", some ⟨2025, 10000⟩, 100, 60, 6000, 1000, 20, false, 10⟩],
        some (some ⟨2025, 10000⟩)⟩ :=
  potential_lots_truthiness_amended.2.2.2 10100 (6/10) 1 10 60 "A" ⟨[], none⟩
    zero_remaining_lot 50 ⟨2025, 10000⟩ 6000 1000 20 rfl rfl (by decide) (by decide)
    (by decide) rfl (by decide) (by decide) (by decide) (by decide)

/-- `round(0, d) = 0`. -/
theorem py_round_zero (d : ℕ) : py_round 0 d = 0 := by
  simp [py_round, round_half_even]

/-- An open Buy lot recorded with purchase price 0 (symbol "A"). -/
def price_zero_lot : Tx := ⟨1, DateField.null, "A", "Buy", "FID", 10, some 0, none, none, none⟩

unseal Rat.mul Rat.add Rat.sub Rat.inv in
/-- C6, counterexample. The claim says a lot with purchase price 0 is
excluded from the profit calculations and the operation never divides by
zero; with `price_zero_lot` and a current price for "A", the `pl_pct` guard
(`price is not None and symbol in current_prices`) passes, the division by
`units * price = 0` raises `ZeroDivisionError`, and the whole
`get_open_lots` request fails. -/
theorem open_lots_zero_division_cex :
    price_zero_lot.price = some 0 ∧
    get_open_lots [("A", 5)] 0 [price_zero_lot] = Except.error "ZeroDivisionError" := by
  decide

/-- C6, amended. In `get_open_lots` (for a lot whose date parses): a lot
with a NULL price has null `lot_basis`/`profit_loss`/`pl_pct`; a lot whose
symbol has *no* current price contributes its units and has null
`profit_loss`/`pl_pct`, but its `current_value` is 0.00 (the price map
defaults to 0), not null; and a lot with price 0 whose symbol *does* have a
current price makes the whole operation fail with a division-by-zero error
instead of being excluded. -/
theorem open_lots_guards_amended :
    (∀ (prices : List (String × ℚ)) (today : ℤ) (t : Tx),
      t.date_new ≠ DateField.str none → t.price = none →
      ∃ r, process_open_lot prices today t = Except.ok r ∧
        r.lot_basis = none ∧ r.profit_loss = none ∧ r.pl_pct = none) ∧
    (∀ (prices : List (String × ℚ)) (today : ℤ) (t : Tx),
      t.date_new ≠ DateField.str none → prices.lookup t.symbol = none →
      ∃ r, process_open_lot prices today t = Except.ok r ∧
        r.units_out = t.units ∧ r.current_value = 0 ∧
        r.profit_loss = none ∧ r.pl_pct = none) ∧
    (∀ (prices : List (String × ℚ)) (today : ℤ) (t : Tx) (cp : ℚ),
      t.date_new ≠ DateField.str none → t.price = some 0 →
      prices.lookup t.symbol = some cp →
      process_open_lot prices today t = Except.error "ZeroDivisionError") := by
  refine ⟨?_, ?_, ?_⟩
  · intro prices today t hd hp
    cases hdn : t.date_new with
    | null =>
      simp only [process_open_lot, hdn, hp]
      exact ⟨_, rfl, rfl, rfl, rfl⟩
    | str o =>
      cases o with
      | none => exact absurd hdn hd
      | some d =>
        simp only [process_open_lot, hdn, hp]
        exact ⟨_, rfl, rfl, rfl, rfl⟩
  · intro prices today t hd hlk
    cases hdn : t.date_new with
    | null =>
      cases hp : t.price with
      | none =>
        simp only [process_open_lot, hdn, hp, hlk]
        exact ⟨_, rfl, rfl, by simpa using py_round_zero 2, rfl, rfl⟩
      | some p =>
        simp only [process_open_lot, hdn, hp, hlk]
        exact ⟨_, rfl, rfl, by simpa using py_round_zero 2, rfl, rfl⟩
    | str o =>
      cases o with
      | none => exact absurd hdn hd
      | some d =>
        cases hp : t.price with
        | none =>
          simp only [process_open_lot, hdn, hp, hlk]
          exact ⟨_, rfl, rfl, by simpa using py_round_zero 2, rfl, rfl⟩
        | some p =>
          simp only [process_open_lot, hdn, hp, hlk]
          exact ⟨_, rfl, rfl, by simpa using py_round_zero 2, rfl, rfl⟩
  · intro prices today t cp hd hp hlk
    cases hdn : t.date_new with
    | null =>
      simp only [process_open_lot, hdn, hp, hlk]
      simp [mul_zero]
    | str o =>
      cases o with
      | none => exact absurd hdn hd
      | some d =>
        simp only [process_open_lot, hdn, hp, hlk]
        simp [mul_zero]

/-- An open Buy lot with a non-null price whose symbol has no current-price
row. -/
def unpriced_symbol_lot : Tx := ⟨2, DateField.null, "B", "Buy", "FID", 4, some 7, none, none, none⟩

/-- An open Buy lot with NULL price. -/
def null_price_lot : Tx := ⟨3, DateField.null, "A", "Buy", "FID", 4, none, none, none, none⟩

unseal Rat.mul Rat.add Rat.sub Rat.inv in
/-- Witness for `open_lots_guards_amended`: the three cases at concrete
lots — NULL price, missing current price, and zero price with a current
price. -/
theorem open_lots_guards_amended_witness :
    (∃ r, process_open_lot [("A", 5)] 0 null_price_lot = Except.ok r ∧
      r.lot_basis = none ∧ r.profit_loss = none ∧ r.pl_pct = none) ∧
    (∃ r, process_open_lot [("A", 5)] 0 unpriced_symbol_lot = Except.ok r ∧
      r.units_out = unpriced_symbol_lot.units ∧ r.current_value = 0 ∧
      r.profit_loss = none ∧ r.pl_pct = none) ∧
    process_open_lot [("A", 5)] 0 price_zero_lot = Except.error "ZeroDivisionError" :=
  ⟨open_lots_guards_amended.1 [("A", 5)] 0 null_price_lot (by decide) rfl,
   open_lots_guards_amended.2.1 [("A", 5)] 0 unpriced_symbol_lot (by decide) rfl,
   open_lots_guards_amended.2.2 [("A", 5)] 0 price_zero_lot 5 (by decide) rfl rfl⟩

/-- An otherwise fully qualifying Buy lot whose `date_new` string does not
parse as `%Y-%m-%d`. -/
def unparseable_date_lot : Tx :=
  ⟨1, DateField.str none, "A", "Buy", "FID", 100, some 50, none, none, none⟩

/-- A store where "A" is overweight (overamt 10 > 8.6), priced at 60, and its
only lot is `unparseable_date_lot` — profitable and above both thresholds. -/
def db_unparseable : Db :=
  ⟨[unparseable_date_lot], [("A", 60)], [⟨"A", 0, 10, "O"⟩]⟩

unseal Rat.mul Rat.add Rat.sub Rat.inv in
/-- C7: the `except (ValueError, TypeError)` handler logs and sets
`is_long_term = False`, but `strptime` raised *before* `purchase_date` was
assigned, and the candidate dict then reads `purchase_date` — a `NameError`
that no handler catches, failing the whole scan (HTTP 500) instead of
returning the candidate list. -/
theorem potential_lots_nameerror_on_unparseable_date :
    unparseable_date_lot.date_new = DateField.str none ∧
    get_potential_lots db_unparseable 10100 (6/10) 1 (86/10) = Except.error "NameError" := by
  decide

/-- C8: with fewer than 3 dividend payments in the window, the classifier
returns the insufficient-data fallback — frequency "quarterly", confidence
0.0, reason "insufficient_data", `data_points` = the number of payments
found, empty intervals — and (being a total function here) never raises. -/
theorem insufficient_data_fallback (s : String) (rows : List DivRow)
    (h : rows.length < 3) :
    detect_payment_frequency s rows =
      ⟨s, "quarterly", 0, "insufficient_data", rows.length, [], none, none, none⟩ := by
  unfold detect_payment_frequency
  rw [if_pos h]

/-- Witness for `insufficient_data_fallback`: exactly two payments give
`data_points = 2` with the quarterly/0.0/insufficient_data fallback. -/
theorem insufficient_data_fallback_witness :
    detect_payment_frequency "X" [⟨none, "X", 1, 1⟩, ⟨some ⟨2025, 10000⟩, "X", 1, 1⟩] =
      ⟨"X", "quarterly", 0, "insufficient_data", 2, [], none, none, none⟩ :=
  insufficient_data_fallback "X" [⟨none, "X", 1, 1⟩, ⟨some ⟨2025, 10000⟩, "X", 1, 1⟩]
    (by decide)

unseal Rat.mul Rat.add Rat.sub Rat.inv in
/-- C9, counterexample. For history [100,110,120,130] (quarterly), the first
forecast step's predicted value is 130, not 140: the loop's first step uses
`x = N + 0·interval = 4`, re-predicting the last fitted period. -/
theorem first_forecast_step_cex :
    first_forecast_cost [100, 110, 120, 130] false 0 1000 = some 130 ∧
    some (130 : ℚ) ≠ some (140 : ℚ) := by
  decide

unseal Rat.mul Rat.add Rat.sub Rat.inv in
/-- C9, amended. The OLS fit for [100,110,120,130] is slope 10, intercept 90
as claimed, but the forecast values are `90 + 10·(4 + 3·i)` for step index
`i = 0, 1, 2, …` — 130, 160, 190, … — so the first forecast step is 130 and
the value 140 (x = 5) never occurs in the quarterly series. -/
theorem quarterly_forecast_amended :
    ols_fit [100, 110, 120, 130] = (10, 90) ∧
    forecast_costs [100, 110, 120, 130] false 0 1000 =
      [130, 160, 190, 220, 250, 280, 310, 340, 370, 400, 430] := by
  decide

/-- The OLS slope denominator vanishes on a one-period history:
`sum_xx - N·mean_x² = 1 - 1 = 0`. -/
theorem slope_denominator_single (y : ℚ) : slope_denominator [y] = 0 := by
  unfold slope_denominator period_indices
  norm_num [List.range_succ]

/-- On a one-period history the slope computation divides by zero and the
route fails. -/
theorem prediction_single_error (s : String) (y : ℚ) (m : Bool) (ld md : ℤ) :
    get_symbol_prediction s [y] m ld md = Except.error "ZeroDivisionError" := by
  unfold get_symbol_prediction
  rw [if_neg (by simp), if_pos (slope_denominator_single y)]

/-- C10: a dividend history with exactly one aggregated period makes
`get_symbol_prediction` fail with the zero slope denominator
(`ZeroDivisionError`); more generally any history shorter than two periods
produces an error, never a forecast. -/
theorem forecast_requires_two_periods :
    (∀ (s : String) (y : ℚ) (m : Bool) (ld md : ℤ),
      get_symbol_prediction s [y] m ld md = Except.error "ZeroDivisionError") ∧
    (∀ (s : String) (history : List ℚ) (m : Bool) (ld md : ℤ),
      history.length < 2 →
      ∃ e, get_symbol_prediction s history m ld md = Except.error e) := by
  constructor
  · intro s y m ld md
    exact prediction_single_error s y m ld md
  · intro s history m ld md hlen
    rcases history with _ | ⟨y, _ | ⟨z, t⟩⟩
    · exact ⟨"404: no dividend history", rfl⟩
    · exact ⟨"ZeroDivisionError", prediction_single_error s y m ld md⟩
    · simp only [List.length_cons] at hlen
      omega

/-- Witness for `forecast_requires_two_periods`: a one-period history fails
with an error. -/
theorem forecast_requires_two_periods_witness :
    ∃ e, get_symbol_prediction "X" [(100 : ℚ)] false 0 1000 = Except.error e :=
  forecast_requires_two_periods.2 "X" [100] false 0 1000 (by decide)
